import Mathlib

/-!
Verification of the federated-escrow core: a shallow embedding of
src/escrow_policy.rs and src/escrow_tx.rs.

Modelling choices:
- A bitcoin public key is represented by its textual (Display) encoding, a
  hex string: the source only ever formats keys into a descriptor string.
- Addresses and transaction ids are opaque strings; amounts are natural
  numbers of satoshis (u64 in the source; all arithmetic here is guarded
  subtraction, which cannot overflow).
- The external miniscript compiler is not part of this repository; it is
  modelled from the spec, restricted to the threshold-descriptor grammar the
  Policy Builder emits.
-/

/-- A participant public key, modelled by its textual encoding (the source
only uses the Display form of `miniscript::bitcoin::PublicKey`). -/
abbrev PubKeyStr := String

/-- Escrow participants (src/escrow_policy.rs): seller, buyer, arbiter. -/
structure EscrowPolicy where
  seller : PubKeyStr
  buyer : PubKeyStr
  arbiter : PubKeyStr

/-- `EscrowPolicy::new`: stores the three keys verbatim, no validation. -/
def EscrowPolicy.new (seller buyer arbiter : PubKeyStr) : EscrowPolicy :=
  { seller := seller, buyer := buyer, arbiter := arbiter }

/-- `EscrowPolicy::to_miniscript_policy`: the 2-of-3 threshold descriptor
string, formatted exactly as in the source
(`format!("thresh(2,pk({}),pk({}),pk({}))", seller, buyer, arbiter)`). -/
def EscrowPolicy.to_miniscript_policy (p : EscrowPolicy) : String :=
  "thresh(2,pk(" ++ p.seller ++ "),pk(" ++ p.buyer ++ "),pk(" ++ p.arbiter ++ "))"

/-- A hex digit, the only characters a valid key encoding may contain. -/
def keyChar (c : Char) : Bool :=
  c.isDigit || (('a' ≤ c) && (c ≤ 'f')) || (('A' ≤ c) && (c ≤ 'F'))

/-- A valid public-key encoding: 66 (compressed) or 130 (uncompressed)
hex characters. -/
def validKey (s : String) : Bool :=
  (s.length = 66 || s.length = 130) && s.data.all keyChar

/-- Concrete policy AST of the external miniscript library (only the
fragments relevant to this repository: keys and thresholds). -/
inductive Concrete where
  | pk (key : PubKeyStr)
  | thresh (k : Nat) (subs : List Concrete)
deriving Repr

/-- Error type of the external miniscript compiler: observable only by its
message text (the source boxes it into `Box<dyn std::error::Error>`). -/
structure MiniscriptError where
  message : String
deriving Repr, DecidableEq

/-- Removes the literal `lit` from the front of `cs`, or fails. -/
def dropLit : List Char → List Char → Option (List Char)
  | [], cs => some cs
  | _ :: _, [] => none
  | l :: ls, c :: cs => if l = c then dropLit ls cs else none

/-- Reads characters up to (not including) the first closing parenthesis. -/
def readKey : List Char → Option (List Char × List Char)
  | [] => none
  | c :: cs =>
    if c = ')' then some ([], c :: cs)
    else
      match readKey cs with
      | some (k, r) => some (c :: k, r)
      | none => none

/-- Modelled from the spec: the external script-policy compiler (§6) for the
threshold grammar the Policy Builder emits — it accepts exactly the strings
`thresh(2,pk(K1),pk(K2),pk(K3))` with valid key encodings. -/
def parseThresh (s : String) : Option Concrete :=
  match dropLit "thresh(2,pk(".data s.data with
  | none => none
  | some r1 =>
    match readKey r1 with
    | none => none
    | some (k1, r2) =>
      match dropLit "),pk(".data r2 with
      | none => none
      | some r3 =>
        match readKey r3 with
        | none => none
        | some (k2, r4) =>
          match dropLit "),pk(".data r4 with
          | none => none
          | some r5 =>
            match readKey r5 with
            | none => none
            | some (k3, r6) =>
              if r6 = "))".data ∧ validKey ⟨k1⟩ ∧ validKey ⟨k2⟩ ∧ validKey ⟨k3⟩ then
                some (.thresh 2 [.pk ⟨k1⟩, .pk ⟨k2⟩, .pk ⟨k3⟩])
              else none

/-- Modelled from the spec: `Concrete::<PublicKey>::from_str` of the external
library — compiled condition on success, a message-bearing parse error
otherwise. -/
def Concrete.from_str (s : String) : Except MiniscriptError Concrete :=
  match parseThresh s with
  | some c => Except.ok c
  | none => Except.error ⟨"invalid policy: " ++ s⟩

/-- `EscrowPolicy::parse`: builds the descriptor string and delegates to the
external compiler; the `?` operator boxes the error into
`Box<dyn std::error::Error>`, observable only as its message text. -/
def EscrowPolicy.parse (p : EscrowPolicy) : Except String Concrete :=
  match Concrete.from_str p.to_miniscript_policy with
  | Except.ok c => Except.ok c
  | Except.error e => Except.error e.message

mutual

/-- Modelled from the spec: satisfaction of a compiled threshold spending
condition (glossary: "a script requiring any K of N designated keys to sign"):
a key fragment is satisfied when its key is among the signers, a threshold
when at least `k` of its sub-conditions are. -/
def satisfies (signers : List PubKeyStr) : Concrete → Bool
  | .pk k => signers.contains k
  | .thresh k subs => k ≤ countSat signers subs

/-- Number of sub-conditions satisfied by the given signers. -/
def countSat (signers : List PubKeyStr) : List Concrete → Nat
  | [] => 0
  | c :: cs => (if satisfies signers c then 1 else 0) + countSat signers cs

end

/-- A bitcoin address, modelled as its opaque textual form. -/
abbrev Address := String

/-- A transaction id referencing the source UTXO, opaque. -/
abbrev Txid := String

/-- A transaction output: destination address and value in satoshis. -/
structure TxOut where
  address : Address
  value : Nat
deriving Repr, DecidableEq

/-- An unsigned transaction template: inputs (source UTXO references) and
outputs. -/
structure Transaction where
  inputs : List Txid
  outputs : List TxOut
deriving Repr, DecidableEq

/-- Amount errors of the spec's error taxonomy (§7); the builder bodies in
src/escrow_tx.rs are unimplemented stubs, so this taxonomy comes from the
spec. -/
inductive AmountError where
  | InsufficientForFee
deriving Repr, DecidableEq

/-- The escrow lifecycle data (src/escrow_tx.rs): the escrow (multisig)
address, the buyer payout address, the seller refund address, and a flat fee
in satoshis. -/
structure EscrowTransaction where
  escrow_address : Address
  buyer_payout_address : Address
  seller_refund_address : Address
  fee_sats : Nat

/-- `EscrowTransaction::new`: stores the four arguments verbatim, no
validation. -/
def EscrowTransaction.new (escrow_address buyer_payout_address
    seller_refund_address : Address) (fee_sats : Nat) : EscrowTransaction :=
  { escrow_address := escrow_address
    buyer_payout_address := buyer_payout_address
    seller_refund_address := seller_refund_address
    fee_sats := fee_sats }

/-- The four transaction intents of §3/§4.2. -/
inductive Intent where
  | funding
  | releaseToBuyer
  | refundToSeller
  | disputeReleaseToBuyer
deriving Repr, DecidableEq

/-- Modelled from the spec: the shared builder contract of §4.2 — the four
builder bodies in src/escrow_tx.rs are `todo!()` stubs; per the contract, a
template has exactly one input and one output (destination amount = source
amount − fee), and the fee must be strictly less than the source amount,
failing with `AmountError::InsufficientForFee` otherwise. -/
def EscrowTransaction.build_to (e : EscrowTransaction) (dest : Address)
    (utxo : Txid) (amount : Nat) : Except AmountError Transaction :=
  if e.fee_sats < amount then
    Except.ok { inputs := [utxo],
                outputs := [{ address := dest, value := amount - e.fee_sats }] }
  else
    Except.error AmountError.InsufficientForFee

/-- Modelled from the spec: `build_funding_tx` (stub in source) —
the seller's UTXO funds the escrow address. -/
def EscrowTransaction.build_funding_tx (e : EscrowTransaction)
    (seller_utxo : Txid) (amount : Nat) : Except AmountError Transaction :=
  e.build_to e.escrow_address seller_utxo amount

/-- Modelled from the spec: `build_release_to_buyer_tx` (stub in source) —
the escrow UTXO pays the buyer payout address. -/
def EscrowTransaction.build_release_to_buyer_tx (e : EscrowTransaction)
    (escrow_utxo : Txid) (amount : Nat) : Except AmountError Transaction :=
  e.build_to e.buyer_payout_address escrow_utxo amount

/-- Modelled from the spec: `build_refund_to_seller_tx` (stub in source) —
the escrow UTXO returns to the seller refund address. -/
def EscrowTransaction.build_refund_to_seller_tx (e : EscrowTransaction)
    (escrow_utxo : Txid) (amount : Nat) : Except AmountError Transaction :=
  e.build_to e.seller_refund_address escrow_utxo amount

/-- Modelled from the spec: `build_dispute_release_to_buyer_tx` (stub in
source) — the escrow UTXO pays the buyer payout address. -/
def EscrowTransaction.build_dispute_release_to_buyer_tx (e : EscrowTransaction)
    (escrow_utxo : Txid) (amount : Nat) : Except AmountError Transaction :=
  e.build_to e.buyer_payout_address escrow_utxo amount

/-- Dispatches an intent to the corresponding builder operation. -/
def EscrowTransaction.build (e : EscrowTransaction) (i : Intent)
    (utxo : Txid) (amount : Nat) : Except AmountError Transaction :=
  match i with
  | .funding => e.build_funding_tx utxo amount
  | .releaseToBuyer => e.build_release_to_buyer_tx utxo amount
  | .refundToSeller => e.build_refund_to_seller_tx utxo amount
  | .disputeReleaseToBuyer => e.build_dispute_release_to_buyer_tx utxo amount

/-- The destination the §4.2 table specifies for each intent (the spec side
of the destination-correctness claim). -/
def intentDest (e : EscrowTransaction) : Intent → Address
  | .funding => e.escrow_address
  | .releaseToBuyer => e.buyer_payout_address
  | .refundToSeller => e.seller_refund_address
  | .disputeReleaseToBuyer => e.buyer_payout_address

/-- The addresses held by an escrow instance. -/
def instanceAddrs (e : EscrowTransaction) : List Address :=
  [e.escrow_address, e.buyer_payout_address, e.seller_refund_address]

/-- The destination addresses of a template's outputs. -/
def outAddrs (t : Transaction) : List Address :=
  t.outputs.map TxOut.address

/-- Models the call of the `&self` method `to_miniscript_policy`: the
receiver is borrowed immutably, so the call yields the output together with
the untouched receiver. -/
def EscrowPolicy.describe_call (p : EscrowPolicy) : String × EscrowPolicy :=
  (p.to_miniscript_policy, p)

/-- Models the call of the `&self` method `parse`, with the untouched
receiver. -/
def EscrowPolicy.parse_call (p : EscrowPolicy) :
    Except String Concrete × EscrowPolicy :=
  (p.parse, p)

/-- Models the call of any of the four `&self` builder methods, with the
untouched receiver. -/
def EscrowTransaction.build_call (e : EscrowTransaction) (i : Intent)
    (utxo : Txid) (amount : Nat) :
    Except AmountError Transaction × EscrowTransaction :=
  (e.build i utxo amount, e)

/-- A valid compressed-key encoding (66 hex characters), for witnesses. -/
def keyA : String := "02aaaaaaaaaaaaaaaaaaaaaaaaaaaaaaaaaaaaaaaaaaaaaaaaaaaaaaaaaaaaaaaa"

/-- A second valid compressed-key encoding. -/
def keyB : String := "02bbbbbbbbbbbbbbbbbbbbbbbbbbbbbbbbbbbbbbbbbbbbbbbbbbbbbbbbbbbbbbbb"

/-- A third valid compressed-key encoding. -/
def keyC : String := "03cccccccccccccccccccccccccccccccccccccccccccccccccccccccccccccccc"

/-- A concrete escrow instance: the spec §8 example uses a fee of 500 sats
against a 100000-sat escrow UTXO. -/
def egInstance : EscrowTransaction :=
  EscrowTransaction.new "addrEscrow" "addrBuyer" "addrSeller" 500

/-- The template the concrete instance builds for the release intent at
amount 100000: one input, one output of 99500 sats to the buyer. -/
def egTemplate : Transaction :=
  { inputs := ["utxo0"],
    outputs := [{ address := "addrBuyer", value := 99500 }] }

/-! ### Helper lemmas about the descriptor parser -/

theorem dropLit_self (l cs : List Char) : dropLit l (l ++ cs) = some cs := by
  induction l with
  | nil => rfl
  | cons c ls ih => simpa [dropLit] using ih

theorem readKey_spec (k : List Char) (hk : ∀ c ∈ k, c ≠ ')') (t : List Char) :
    readKey (k ++ ')' :: t) = some (k, ')' :: t) := by
  induction k with
  | nil => simp [readKey]
  | cons c cs ih =>
    have hc : c ≠ ')' := hk c (List.mem_cons_self c cs)
    have ihs : readKey (cs ++ ')' :: t) = some (cs, ')' :: t) :=
      ih fun x hx => hk x (List.mem_cons_of_mem c hx)
    simp [readKey, hc, ihs]

theorem keyChar_ne_paren (c : Char) (h : keyChar c = true) : c ≠ ')' := by
  intro he
  subst he
  simp [keyChar, Char.isDigit, Char.le_def] at h

theorem validKey_no_paren (s : String) (h : validKey s = true) :
    ∀ c ∈ s.data, c ≠ ')' := by
  intro c hc
  simp [validKey, List.all_eq_true] at h
  exact keyChar_ne_paren c (h.2 c hc)

/-- The character-level shape of the generated descriptor. -/
theorem to_miniscript_policy_data (p : EscrowPolicy) :
    p.to_miniscript_policy.data =
      "thresh(2,pk(".data ++ (p.seller.data ++ (')' :: (",pk(".data ++
        (p.buyer.data ++ (')' :: (",pk(".data ++ (p.arbiter.data ++
          [')', ')']))))))) := by
  simp [EscrowPolicy.to_miniscript_policy]

/-- Dropping the inter-key separator, stated in the shape `readKey` leaves
behind (the forms agree definitionally). -/
theorem dropLit_sep (X : List Char) :
    dropLit "),pk(".data (')' :: (",pk(".data ++ X)) = some X :=
  dropLit_self "),pk(".data X

/-- The same separator fact with the literal unfolded to characters. -/
theorem dropLit_sep_cons (X : List Char) :
    dropLit [')', ',', 'p', 'k', '('] (')' :: ',' :: 'p' :: 'k' :: '(' :: X) =
      some X := by
  simp [dropLit]

theorem string_eta (s : String) : String.mk s.data = s := rfl

theorem data_end_sep : ("))".data : List Char) = [')', ')'] := rfl

/-- The generated descriptor always parses back into the expected 2-of-3
threshold condition when the three keys are valid encodings. -/
theorem parseThresh_generated (p : EscrowPolicy)
    (hs : validKey p.seller = true) (hb : validKey p.buyer = true)
    (ha : validKey p.arbiter = true) :
    parseThresh p.to_miniscript_policy =
      some (Concrete.thresh 2 [.pk p.seller, .pk p.buyer, .pk p.arbiter]) := by
  have hsp := validKey_no_paren p.seller hs
  have hbp := validKey_no_paren p.buyer hb
  have hap := validKey_no_paren p.arbiter ha
  simp only [parseThresh, to_miniscript_policy_data, dropLit_self,
    readKey_spec p.seller.data hsp, dropLit_sep,
    readKey_spec p.buyer.data hbp, readKey_spec p.arbiter.data hap,
    string_eta, data_end_sep]
  simp [dropLit_sep_cons, readKey_spec p.buyer.data hbp,
    readKey_spec p.arbiter.data hap, string_eta, hs, hb, ha]

/-- `parse` on a policy with valid key encodings yields the compiled
threshold condition. -/
theorem parse_generated (p : EscrowPolicy)
    (hs : validKey p.seller = true) (hb : validKey p.buyer = true)
    (ha : validKey p.arbiter = true) :
    p.parse =
      Except.ok (Concrete.thresh 2 [.pk p.seller, .pk p.buyer, .pk p.arbiter]) := by
  rw [EscrowPolicy.parse, Concrete.from_str, parseThresh_generated p hs hb ha]

/-! ### Claim theorems -/

/-- C1: for every triple of distinct, validly encoded participant keys, the
descriptor produced by `to_miniscript_policy` compiles to the 2-of-3
threshold over seller, buyer, arbiter: it is satisfied by every pair of the
three keys, by no single key and by no keys at all, the threshold is exactly
2 over exactly those three key fragments, and no key appears twice. -/
theorem policy_is_two_of_three (s b a : PubKeyStr)
    (hvs : validKey s = true) (hvb : validKey b = true)
    (hva : validKey a = true)
    (hsb : s ≠ b) (hsa : s ≠ a) (hba : b ≠ a) :
    Concrete.from_str (EscrowPolicy.new s b a).to_miniscript_policy =
        Except.ok (Concrete.thresh 2 [.pk s, .pk b, .pk a]) ∧
      satisfies [s, b] (Concrete.thresh 2 [.pk s, .pk b, .pk a]) = true ∧
      satisfies [s, a] (Concrete.thresh 2 [.pk s, .pk b, .pk a]) = true ∧
      satisfies [b, a] (Concrete.thresh 2 [.pk s, .pk b, .pk a]) = true ∧
      satisfies [s] (Concrete.thresh 2 [.pk s, .pk b, .pk a]) = false ∧
      satisfies [b] (Concrete.thresh 2 [.pk s, .pk b, .pk a]) = false ∧
      satisfies [a] (Concrete.thresh 2 [.pk s, .pk b, .pk a]) = false ∧
      satisfies [] (Concrete.thresh 2 [.pk s, .pk b, .pk a]) = false ∧
      ([s, b, a] : List PubKeyStr).Nodup := by
  refine ⟨?_, ?_, ?_, ?_, ?_, ?_, ?_, ?_, ?_⟩
  · rw [Concrete.from_str, parseThresh_generated (EscrowPolicy.new s b a) hvs hvb hva]
    rfl
  all_goals
    simp [satisfies, countSat, hsb, hsa, hba,
      Ne.symm hsb, Ne.symm hsa, Ne.symm hba]

/-- Witness for C1 at three concrete distinct compressed keys. -/
theorem policy_is_two_of_three_witness :
    (validKey keyA = true ∧ validKey keyB = true ∧ validKey keyC = true ∧
      keyA ≠ keyB ∧ keyA ≠ keyC ∧ keyB ≠ keyC) ∧
    (Concrete.from_str (EscrowPolicy.new keyA keyB keyC).to_miniscript_policy =
        Except.ok (Concrete.thresh 2 [.pk keyA, .pk keyB, .pk keyC]) ∧
      satisfies [keyA, keyB] (Concrete.thresh 2 [.pk keyA, .pk keyB, .pk keyC]) = true ∧
      satisfies [keyA, keyC] (Concrete.thresh 2 [.pk keyA, .pk keyB, .pk keyC]) = true ∧
      satisfies [keyB, keyC] (Concrete.thresh 2 [.pk keyA, .pk keyB, .pk keyC]) = true ∧
      satisfies [keyA] (Concrete.thresh 2 [.pk keyA, .pk keyB, .pk keyC]) = false ∧
      satisfies [keyB] (Concrete.thresh 2 [.pk keyA, .pk keyB, .pk keyC]) = false ∧
      satisfies [keyC] (Concrete.thresh 2 [.pk keyA, .pk keyB, .pk keyC]) = false ∧
      satisfies [] (Concrete.thresh 2 [.pk keyA, .pk keyB, .pk keyC]) = false ∧
      ([keyA, keyB, keyC] : List PubKeyStr).Nodup) :=
  ⟨⟨by decide, by decide, by decide, by decide, by decide, by decide⟩,
    policy_is_two_of_three keyA keyB keyC (by decide) (by decide) (by decide)
      (by decide) (by decide) (by decide)⟩

/-- C3: `to_miniscript_policy` is a deterministic, order-sensitive pure
function of the three keys: it returns the fixed textual threshold template
with the keys in seller, buyer, arbiter order; equal key triples give equal
strings; and swapping two distinct (equal-length) keys changes the string. -/
theorem describe_deterministic_order_sensitive (s b a s2 b2 a2 : PubKeyStr)
    (hlen : s.length = b.length) (hne : s ≠ b) :
    (EscrowPolicy.new s b a).to_miniscript_policy =
        "thresh(2,pk(" ++ s ++ "),pk(" ++ b ++ "),pk(" ++ a ++ "))" ∧
      (s = s2 → b = b2 → a = a2 →
        (EscrowPolicy.new s b a).to_miniscript_policy =
          (EscrowPolicy.new s2 b2 a2).to_miniscript_policy) ∧
      (EscrowPolicy.new s b a).to_miniscript_policy ≠
        (EscrowPolicy.new b s a).to_miniscript_policy := by
  refine ⟨rfl, ?_, ?_⟩
  · intro h1 h2 h3
    subst h1; subst h2; subst h3
    rfl
  · intro heq
    have hdata := congrArg String.data heq
    rw [to_miniscript_policy_data, to_miniscript_policy_data] at hdata
    have h1 := (List.append_inj hdata rfl).2
    have h2 := (List.append_inj h1 hlen).1
    exact hne (congrArg String.mk h2)

/-- Witness for C3 at concrete keys of equal length. -/
theorem describe_deterministic_order_sensitive_witness :
    (keyA.length = keyB.length ∧ keyA ≠ keyB) ∧
    ((EscrowPolicy.new keyA keyB keyC).to_miniscript_policy =
        "thresh(2,pk(" ++ keyA ++ "),pk(" ++ keyB ++ "),pk(" ++ keyC ++ "))" ∧
      (keyA = keyA → keyB = keyB → keyC = keyC →
        (EscrowPolicy.new keyA keyB keyC).to_miniscript_policy =
          (EscrowPolicy.new keyA keyB keyC).to_miniscript_policy) ∧
      (EscrowPolicy.new keyA keyB keyC).to_miniscript_policy ≠
        (EscrowPolicy.new keyB keyA keyC).to_miniscript_policy) :=
  ⟨⟨by decide, by decide⟩,
    describe_deterministic_order_sensitive keyA keyB keyC keyA keyB keyC
      (by decide) (by decide)⟩

/-- C7: under the fixed descriptor template, `parse`'s error branch is
unreachable — for every policy built from valid, distinct key encodings,
`parse` returns `Ok` with the compiled threshold condition. -/
theorem parse_error_branch_unreachable (s b a : PubKeyStr)
    (hvs : validKey s = true) (hvb : validKey b = true)
    (hva : validKey a = true)
    (_hsb : s ≠ b) (_hsa : s ≠ a) (_hba : b ≠ a) :
    (EscrowPolicy.new s b a).parse =
      Except.ok (Concrete.thresh 2 [.pk s, .pk b, .pk a]) :=
  parse_generated (EscrowPolicy.new s b a) hvs hvb hva

/-- Witness for C7 at three concrete distinct compressed keys. -/
theorem parse_error_branch_unreachable_witness :
    (validKey keyA = true ∧ validKey keyB = true ∧ validKey keyC = true ∧
      keyA ≠ keyB ∧ keyA ≠ keyC ∧ keyB ≠ keyC) ∧
    (EscrowPolicy.new keyA keyB keyC).parse =
      Except.ok (Concrete.thresh 2 [.pk keyA, .pk keyB, .pk keyC]) :=
  ⟨⟨by decide, by decide, by decide, by decide, by decide, by decide⟩,
    parse_error_branch_unreachable keyA keyB keyC (by decide) (by decide)
      (by decide) (by decide) (by decide) (by decide)⟩

/-- C8: `to_miniscript_policy` performs no distinctness validation — for
every triple of keys, including triples with two or three equal keys, it
returns the threshold descriptor (it is total and never rejects). -/
theorem describe_accepts_duplicate_keys (s b a : PubKeyStr) :
    (EscrowPolicy.new s b a).to_miniscript_policy =
        "thresh(2,pk(" ++ s ++ "),pk(" ++ b ++ "),pk(" ++ a ++ "))" ∧
      (EscrowPolicy.new s s a).to_miniscript_policy =
        "thresh(2,pk(" ++ s ++ "),pk(" ++ s ++ "),pk(" ++ a ++ "))" ∧
      (EscrowPolicy.new s s s).to_miniscript_policy =
        "thresh(2,pk(" ++ s ++ "),pk(" ++ s ++ "),pk(" ++ s ++ "))" :=
  ⟨rfl, rfl, rfl⟩

/-- C9: the participant keys and the instance fields are immutable under
every operation — calling `to_miniscript_policy` or `parse` leaves the three
keys unchanged, and calling any builder leaves the three addresses and the
fee unchanged. -/
theorem operations_leave_fields_unchanged (p : EscrowPolicy)
    (e : EscrowTransaction) (i : Intent) (utxo : Txid) (amount : Nat) :
    (p.describe_call.2.seller = p.seller ∧
      p.describe_call.2.buyer = p.buyer ∧
      p.describe_call.2.arbiter = p.arbiter) ∧
    (p.parse_call.2.seller = p.seller ∧
      p.parse_call.2.buyer = p.buyer ∧
      p.parse_call.2.arbiter = p.arbiter) ∧
    ((e.build_call i utxo amount).2.escrow_address = e.escrow_address ∧
      (e.build_call i utxo amount).2.buyer_payout_address =
        e.buyer_payout_address ∧
      (e.build_call i utxo amount).2.seller_refund_address =
        e.seller_refund_address ∧
      (e.build_call i utxo amount).2.fee_sats = e.fee_sats) :=
  ⟨⟨rfl, rfl, rfl⟩, ⟨rfl, rfl, rfl⟩, rfl, rfl, rfl, rfl⟩

/-- C10: the constructors are total and store each argument verbatim — for
every combination of arguments (duplicate keys, equal addresses, zero fee
included), each field of the freshly constructed value is exactly the
corresponding argument. -/
theorem constructors_store_arguments_verbatim (s b a : PubKeyStr)
    (ea ba sa : Address) (fee : Nat) :
    ((EscrowPolicy.new s b a).seller = s ∧
      (EscrowPolicy.new s b a).buyer = b ∧
      (EscrowPolicy.new s b a).arbiter = a) ∧
    ((EscrowTransaction.new ea ba sa fee).escrow_address = ea ∧
      (EscrowTransaction.new ea ba sa fee).buyer_payout_address = ba ∧
      (EscrowTransaction.new ea ba sa fee).seller_refund_address = sa ∧
      (EscrowTransaction.new ea ba sa fee).fee_sats = fee) :=
  ⟨⟨rfl, rfl, rfl⟩, rfl, rfl, rfl, rfl⟩

/-- C2: for each intent, a successfully built template's destination is
exactly the address the §4.2 table specifies for that intent, and no other
address held by the instance occurs among the template's destinations. -/
theorem template_destination_matches_table (e : EscrowTransaction)
    (utxo : Txid) (amount : Nat) (i : Intent) (t : Transaction)
    (hok : e.build i utxo amount = Except.ok t) :
    outAddrs t = [intentDest e i] ∧
      ∀ addr ∈ instanceAddrs e, addr ≠ intentDest e i → addr ∉ outAddrs t := by
  have hlt : e.fee_sats < amount := by
    by_contra hge
    cases i <;>
      simp [EscrowTransaction.build, EscrowTransaction.build_funding_tx,
        EscrowTransaction.build_release_to_buyer_tx,
        EscrowTransaction.build_refund_to_seller_tx,
        EscrowTransaction.build_dispute_release_to_buyer_tx,
        EscrowTransaction.build_to, hge] at hok
  constructor
  · cases i <;>
      simp [EscrowTransaction.build, EscrowTransaction.build_funding_tx,
        EscrowTransaction.build_release_to_buyer_tx,
        EscrowTransaction.build_refund_to_seller_tx,
        EscrowTransaction.build_dispute_release_to_buyer_tx,
        EscrowTransaction.build_to, hlt] at hok <;>
      simp [← hok, outAddrs, intentDest]
  · intro addr _ hne hmem
    have hdest : outAddrs t = [intentDest e i] := by
      cases i <;>
        simp [EscrowTransaction.build, EscrowTransaction.build_funding_tx,
          EscrowTransaction.build_release_to_buyer_tx,
          EscrowTransaction.build_refund_to_seller_tx,
          EscrowTransaction.build_dispute_release_to_buyer_tx,
          EscrowTransaction.build_to, hlt] at hok <;>
        simp [← hok, outAddrs, intentDest]
    rw [hdest] at hmem
    exact hne (List.mem_singleton.mp hmem)

/-- Witness for C2: the release-to-buyer template of the concrete instance
pays the buyer payout address and no other instance address. -/
theorem template_destination_matches_table_witness :
    egInstance.build Intent.releaseToBuyer "utxo0" 100000 =
        Except.ok egTemplate ∧
    (outAddrs egTemplate = [intentDest egInstance Intent.releaseToBuyer] ∧
      ∀ addr ∈ instanceAddrs egInstance,
        addr ≠ intentDest egInstance Intent.releaseToBuyer →
          addr ∉ outAddrs egTemplate) :=
  ⟨rfl,
    template_destination_matches_table egInstance "utxo0" 100000
      Intent.releaseToBuyer egTemplate rfl⟩

/-- C4: every builder operation fails with `AmountError::InsufficientForFee`
exactly when the fee is at least the source amount (boundary fee = amount
included), and succeeds exactly when the fee is strictly below it. -/
theorem builders_reject_insufficient_amount (e : EscrowTransaction)
    (utxo : Txid) (amount : Nat) :
    (amount ≤ e.fee_sats →
      ∀ i : Intent,
        e.build i utxo amount = Except.error AmountError.InsufficientForFee) ∧
    (e.fee_sats < amount →
      ∀ i : Intent, (e.build i utxo amount).isOk = true) := by
  constructor
  · intro hge i
    have hnlt : ¬ e.fee_sats < amount := not_lt.mpr hge
    cases i <;>
      simp [EscrowTransaction.build, EscrowTransaction.build_funding_tx,
        EscrowTransaction.build_release_to_buyer_tx,
        EscrowTransaction.build_refund_to_seller_tx,
        EscrowTransaction.build_dispute_release_to_buyer_tx,
        EscrowTransaction.build_to, hnlt]
  · intro hlt i
    cases i <;>
      simp [EscrowTransaction.build, EscrowTransaction.build_funding_tx,
        EscrowTransaction.build_release_to_buyer_tx,
        EscrowTransaction.build_refund_to_seller_tx,
        EscrowTransaction.build_dispute_release_to_buyer_tx,
        EscrowTransaction.build_to, hlt, Except.isOk, Except.toBool]

/-- Witness for C4: on the concrete instance (fee 500), building at the
boundary amount 500 fails for every intent and building at 100000 succeeds
for every intent. -/
theorem builders_reject_insufficient_amount_witness :
    (500 ≤ egInstance.fee_sats) ∧
    (egInstance.build Intent.releaseToBuyer "utxo0" 500 =
        Except.error AmountError.InsufficientForFee) ∧
    (egInstance.fee_sats < 100000) ∧
    ((egInstance.build Intent.releaseToBuyer "utxo0" 100000).isOk = true) :=
  ⟨by decide,
    (builders_reject_insufficient_amount egInstance "utxo0" 500).1
      (by decide) Intent.releaseToBuyer,
    by decide,
    (builders_reject_insufficient_amount egInstance "utxo0" 100000).2
      (by decide) Intent.releaseToBuyer⟩

/-- C5: whenever the source amount strictly exceeds the fee, every intent's
template has exactly one input and one output, and the output value is
exactly source amount minus fee in integer satoshis (adding the fee back
returns the source amount, so no rounding or drift occurs). -/
theorem template_amounts_exact (e : EscrowTransaction)
    (utxo : Txid) (amount : Nat) (hlt : e.fee_sats < amount) :
    ∀ i : Intent, ∀ t, e.build i utxo amount = Except.ok t →
      t.inputs.length = 1 ∧ t.outputs.length = 1 ∧
        ∀ o ∈ t.outputs,
          o.value = amount - e.fee_sats ∧ o.value + e.fee_sats = amount := by
  intro i t hok
  have hsub : amount - e.fee_sats + e.fee_sats = amount :=
    Nat.sub_add_cancel (Nat.le_of_lt hlt)
  cases i <;>
    simp [EscrowTransaction.build, EscrowTransaction.build_funding_tx,
      EscrowTransaction.build_release_to_buyer_tx,
      EscrowTransaction.build_refund_to_seller_tx,
      EscrowTransaction.build_dispute_release_to_buyer_tx,
      EscrowTransaction.build_to, hlt] at hok <;>
    simp [← hok, hsub]

/-- Witness for C5: the spec §8 example — amount 100000, fee 500 — gives a
one-input, one-output template paying 99500. -/
theorem template_amounts_exact_witness :
    (egInstance.fee_sats < 100000) ∧
    (egInstance.build Intent.releaseToBuyer "utxo0" 100000 =
        Except.ok egTemplate) ∧
    (egTemplate.inputs.length = 1 ∧
      egTemplate.outputs.length = 1 ∧
      ∀ o ∈ egTemplate.outputs,
        o.value = 100000 - egInstance.fee_sats ∧
          o.value + egInstance.fee_sats = 100000) :=
  ⟨by decide, rfl,
    template_amounts_exact egInstance "utxo0" 100000 (by decide)
      Intent.releaseToBuyer egTemplate rfl⟩

/-- C6 counterexample: the claim says `parse` reports failure as the single
closed tagged variant `PolicyError::MalformedDescriptor`, so that all
malformed-descriptor failures are one branchable value; in the source the
error is an open-ended boxed error observable only as message text, and two
failures of the same kind produce different error values. -/
theorem parse_error_not_tagged_variant :
    (EscrowPolicy.new "x" "x" "x").parse =
        Except.error "invalid policy: thresh(2,pk(x),pk(x),pk(x))" ∧
      (EscrowPolicy.new "y" "y" "y").parse =
        Except.error "invalid policy: thresh(2,pk(y),pk(y),pk(y))" ∧
      ("invalid policy: thresh(2,pk(x),pk(x),pk(x))" : String) ≠
        "invalid policy: thresh(2,pk(y),pk(y),pk(y))" :=
  ⟨rfl, rfl, by decide⟩

/-- C6 (amended): `parse` fails exactly when the external compiler rejects
the generated descriptor, and it propagates that failure as an open-ended
boxed error carrying the compiler's message text — not as a closed
`PolicyError::MalformedDescriptor` variant (that closed taxonomy is §7's
design goal, not implemented by the source). -/
theorem parse_propagates_compiler_error (p : EscrowPolicy) :
    (∀ c, p.parse = Except.ok c ↔
        Concrete.from_str p.to_miniscript_policy = Except.ok c) ∧
      (∀ e, Concrete.from_str p.to_miniscript_policy = Except.error e →
        p.parse = Except.error e.message) := by
  constructor
  · intro c
    rw [EscrowPolicy.parse]
    cases h : Concrete.from_str p.to_miniscript_policy <;> simp [h]
  · intro e he
    rw [EscrowPolicy.parse, he]

/-- Witness for C6 (amended): at a concrete policy whose descriptor the
compiler rejects, `parse` surfaces exactly the compiler's message. -/
theorem parse_propagates_compiler_error_witness :
    Concrete.from_str (EscrowPolicy.new "x" "x" "x").to_miniscript_policy =
        Except.error ⟨"invalid policy: thresh(2,pk(x),pk(x),pk(x))"⟩ ∧
      (EscrowPolicy.new "x" "x" "x").parse =
        Except.error "invalid policy: thresh(2,pk(x),pk(x),pk(x))" :=
  ⟨rfl,
    (parse_propagates_compiler_error (EscrowPolicy.new "x" "x" "x")).2
      ⟨"invalid policy: thresh(2,pk(x),pk(x),pk(x))"⟩ rfl⟩
